import Mathlib

/-!
Shallow embedding of the ariabot chatbot core: configuration lookup
(config_manager.py), per-vendor request formatting and the provider factory
(ai_providers.py), and conversation assembly (chatbot.py / telegram_bot.py).
Network calls are modelled by the request value each provider builds and by
an abstract chat function returning success or failure.
-/

namespace AriaBot

/-- One chat turn: a role tagged with text content, mirroring the
role/content dictionaries used throughout the repository. -/
structure Message where
  role : String
  content : String
deriving DecidableEq, Repr

/-! ### Python string primitives used by the code -/

/-- Accumulator loop for the Python string split on a dot separator. -/
def splitDotAux (acc : List Char) : List Char → List String
  | [] => [String.mk acc.reverse]
  | c :: cs =>
      if c = '.' then String.mk acc.reverse :: splitDotAux [] cs
      else splitDotAux (c :: acc) cs

/-- Python key.split of a dotted key, as used by Config.get and Config.set:
the empty string splits to a single empty segment. -/
def splitDot (s : String) : List String := splitDotAux [] s.data

/-- ASCII upper-casing of one character, as Python str.upper acts on the
ASCII provider names this code passes it. -/
def upChar (c : Char) : Char :=
  if 'a' ≤ c ∧ c ≤ 'z' then Char.ofNat (c.toNat - 32) else c

/-- ASCII lower-casing of one character, as Python str.lower acts on the
ASCII provider names this code passes it. -/
def downChar (c : Char) : Char :=
  if 'A' ≤ c ∧ c ≤ 'Z' then Char.ofNat (c.toNat + 32) else c

/-- Python str.upper on the ASCII strings used here. -/
def pyUpper (s : String) : String := String.mk (s.data.map upChar)

/-- Python str.lower on the ASCII strings used here. -/
def pyLower (s : String) : String := String.mk (s.data.map downChar)

/-! ### Configuration accessor (config_manager.py) -/

/-- JSON-like configuration values as loaded from config.json. Mappings are
association lists with distinct keys, looked up like Python dicts. -/
inductive CValue where
  | str : String → CValue
  | boolean : Bool → CValue
  | num : Int → CValue
  | dict : List (String × CValue) → CValue
  | null : CValue

/-- The traversal loop of Config.get: walk the key segments, descending into
dict entries, and return the default as soon as a segment is absent or the
current value is not a dict (the isinstance check in the source). -/
def getGo (d : CValue) : CValue → List String → CValue
  | v, [] => v
  | CValue.dict es, k :: ks =>
      match es.lookup k with
      | some v => getGo d v ks
      | none => d
  | _, _ :: _ => d

/-- Config.get: split the dotted key and traverse the loaded configuration,
returning the default on any failure to descend. -/
def Config.get (config : CValue) (key : String) (d : CValue) : CValue :=
  getGo d config (splitDot key)

/-- The environment-probing loop of the Config.api_key property: return the
first non-empty environment value among the candidate names, else the final
(empty) lookup result. os.getenv with default empty string is modelled as a
total function from variable name to string. -/
def probeEnv (getenv : String → String) : List String → String
  | [] => ""
  | n :: ns => if getenv n = "" then probeEnv getenv ns else getenv n

/-- Config.api_key: the configured key when non-empty (Python truthiness on
a string), otherwise probe PROVIDER_API_KEY, PROVIDERAPI_KEY, API_KEY with
the provider name upper-cased. -/
def Config.api_key (configKey : String) (api_provider : String)
    (getenv : String → String) : String :=
  if configKey = "" then
    probeEnv getenv
      [pyUpper api_provider ++ "_API_KEY", pyUpper api_provider ++ "API_KEY",
       "API_KEY"]
  else configKey

/-! ### Provider request formatting (ai_providers.py)

Each provider chat method is modelled by the request value it hands to the
vendor SDK. Temperature is carried as an abstract pass-through type so that
no floating-point arithmetic is modelled: the code never computes with it. -/

/-- The request shape of the OpenAI-style chat completions call, also used
verbatim by the Groq provider. -/
structure ChatCompletionRequest (T : Type) where
  model : String
  messages : List Message
  temperature : T
  max_tokens : Nat
deriving DecidableEq

/-- OpenAIProvider.chat: role/content messages passed through unchanged. -/
def OpenAIProvider.chat {T : Type} (model : String) (temperature : T)
    (max_tokens : Nat) (messages : List Message) : ChatCompletionRequest T :=
  { model := model, messages := messages, temperature := temperature,
    max_tokens := max_tokens }

/-- GroqProvider.chat: same construction as the OpenAI provider. -/
def GroqProvider.chat {T : Type} (model : String) (temperature : T)
    (max_tokens : Nat) (messages : List Message) : ChatCompletionRequest T :=
  { model := model, messages := messages, temperature := temperature,
    max_tokens := max_tokens }

/-- The request shape of the Anthropic messages call: a separate top-level
system field plus the remaining turn list. -/
structure AnthropicRequest (T : Type) where
  model : String
  system : String
  messages : List Message
  temperature : T
  max_tokens : Nat
deriving DecidableEq

/-- One step of the AnthropicProvider.chat conversion loop over the state
(system_message, user_messages): a system message overwrites the system
field, every other message is appended to the turn list. -/
def anthropicStep (st : String × List Message) (m : Message) :
    String × List Message :=
  if m.role = "system" then (m.content, st.2) else (st.1, st.2 ++ [m])

/-- AnthropicProvider.chat: run the conversion loop from the empty system
string and empty turn list, then build the request. -/
def AnthropicProvider.chat {T : Type} (model : String) (temperature : T)
    (max_tokens : Nat) (messages : List Message) : AnthropicRequest T :=
  let st := messages.foldl anthropicStep ("", [])
  { model := model, system := st.1, messages := st.2,
    temperature := temperature, max_tokens := max_tokens }

/-- One entry of the Cohere chat-history list: a role marker paired with the
message text. -/
structure CohereEntry where
  role : String
  message : String
deriving DecidableEq, Repr

/-- The request shape of the Cohere chat call: a singular current message
plus a separate chat-history list. -/
structure CohereRequest (T : Type) where
  model : String
  message : String
  chat_history : List CohereEntry
  temperature : T
  max_tokens : Nat
deriving DecidableEq

/-- One step of the CohereProvider.chat conversion loop over the state
(message_text, chat_history): system messages are skipped, a user message
overwrites the current message text, an assistant message is appended to the
chat history relabelled CHATBOT, any other role is ignored. -/
def cohereStep (st : String × List CohereEntry) (m : Message) :
    String × List CohereEntry :=
  if m.role = "system" then st
  else if m.role = "user" then (m.content, st.2)
  else if m.role = "assistant" then
    (st.1, st.2 ++ [{ role := "CHATBOT", message := m.content }])
  else st

/-- CohereProvider.chat: run the conversion loop from the empty message text
and empty chat history, then build the request. -/
def CohereProvider.chat {T : Type} (model : String) (temperature : T)
    (max_tokens : Nat) (messages : List Message) : CohereRequest T :=
  let st := messages.foldl cohereStep ("", [])
  { model := model, message := st.1, chat_history := st.2,
    temperature := temperature, max_tokens := max_tokens }

/-! ### Provider factory (ai_providers.py) -/

/-- The five registered provider implementations. -/
inductive ProviderKind where
  | openai
  | anthropic
  | cohere
  | ollama
  | groq
deriving DecidableEq, Repr

/-- The fixed PROVIDERS registry mapping name to constructor, in source
order. -/
def PROVIDERS : List (String × ProviderKind) :=
  [("openai", ProviderKind.openai), ("anthropic", ProviderKind.anthropic),
   ("cohere", ProviderKind.cohere), ("ollama", ProviderKind.ollama),
   ("groq", ProviderKind.groq)]

/-- ProviderFactory.create_provider: lower-case the configured name, look it
up in the registry, and fail with a ValueError message listing the available
names when absent. -/
def create_provider (api_provider : String) : Except String ProviderKind :=
  let provider_name := pyLower api_provider
  match PROVIDERS.lookup provider_name with
  | some c => Except.ok c
  | none =>
      Except.error ("Unknown provider \x27" ++ provider_name ++
        "\x27. Available: " ++ String.intercalate ", " (PROVIDERS.map Prod.fst))

/-! ### Conversation assembly (chatbot.py, telegram_bot.py) -/

/-- ChatBot.get_messages_for_api: a system message holding the bot
instructions first when the instructions are non-empty (Python truthiness),
followed by the conversation history in insertion order. The Telegram
handler builds its message list identically. -/
def get_messages_for_api (bot_instructions : String)
    (conversation_history : List Message) : List Message :=
  (if bot_instructions = "" then []
   else [{ role := "system", content := bot_instructions }]) ++
    conversation_history

/-- ChatBot.clear_history: reset the conversation history to empty. -/
def clear_history (_conversation_history : List Message) : List Message := []

/-- The operations that mutate conversation history: appending a user turn,
appending an assistant reply (chatbot.py process_chat_message and the
Telegram handle_message), and clearing. -/
inductive HistOp where
  | user : String → HistOp
  | assistant : String → HistOp
  | clear : HistOp
deriving DecidableEq, Repr

/-- Apply one history-mutating operation to the current history. -/
def applyOp (h : List Message) : HistOp → List Message
  | HistOp.user s => h ++ [{ role := "user", content := s }]
  | HistOp.assistant s => h ++ [{ role := "assistant", content := s }]
  | HistOp.clear => clear_history h

/-- Run a sequence of history-mutating operations from the empty history the
bot starts with. -/
def runOps (ops : List HistOp) : List Message := ops.foldl applyOp []

/-- The observable outcome of one chat turn of
ChatBot.process_chat_message: the updated history, whether the session
continues, the reply printed on success, and the error line printed on
failure. -/
structure ChatTurnResult where
  conversation_history : List Message
  continue_session : Bool
  reply : Option String
  error_message : Option String
deriving DecidableEq, Repr

/-- ChatBot.process_chat_message: append the user message to history, build
the API message list, call the provider chat once; on success append the
assistant reply and print it, on any exception print one error line and
keep the session going. The provider call is an abstract function from the
assembled messages to success or failure. -/
def process_chat_message (chat : List Message → Except String String)
    (bot_instructions : String) (hist : List Message) (user_input : String) :
    ChatTurnResult :=
  let hist1 := hist ++ [{ role := "user", content := user_input }]
  match chat (get_messages_for_api bot_instructions hist1) with
  | Except.ok response =>
      { conversation_history :=
          hist1 ++ [{ role := "assistant", content := response }],
        continue_session := true, reply := some response,
        error_message := none }
  | Except.error e =>
      { conversation_history := hist1, continue_session := true,
        reply := none, error_message := some ("Error: " ++ e) }

/-! ### Helper lemmas -/

/-- Prepending an element shifts the fallback of a getLast? lookup. -/
lemma getLastD_cons {α : Type} :
    ∀ (l : List α) (a d : α),
      ((a :: l).getLast?).getD d = (l.getLast?).getD a := by
  intro l
  induction l with
  | nil => intro a d; rfl
  | cons b bs ih =>
      intro a d
      rw [List.getLast?_cons_cons, ih b d, ih b a]

/-- Closed form of the AnthropicProvider.chat conversion loop from an
arbitrary starting state: the system field ends as the content of the last
system-role message (falling back to the start value) and the turn list
collects every non-system message in order. -/
lemma anthropic_foldl :
    ∀ (msgs : List Message) (s : String) (h : List Message),
      msgs.foldl anthropicStep (s, h) =
        ((((msgs.filter (fun m => m.role == "system")).map
            Message.content).getLast?).getD s,
         h ++ msgs.filter (fun m => m.role != "system")) := by
  intro msgs
  induction msgs with
  | nil => intro s h; simp
  | cons m ms ih =>
      intro s h
      by_cases hm : m.role = "system"
      · simp [anthropicStep, hm, ih, List.filter_cons, getLastD_cons]
      · simp [anthropicStep, hm, ih, List.filter_cons]

/-- Closed form of the CohereProvider.chat conversion loop from an arbitrary
starting state: the current message ends as the content of the last
user-role message (falling back to the start value) and the chat history
collects every assistant-role message, relabelled CHATBOT, in order. -/
lemma cohere_foldl :
    ∀ (msgs : List Message) (s : String) (h : List CohereEntry),
      msgs.foldl cohereStep (s, h) =
        ((((msgs.filter (fun m => m.role == "user")).map
            Message.content).getLast?).getD s,
         h ++ (msgs.filter (fun m => m.role == "assistant")).map
            (fun m => { role := "CHATBOT", message := m.content })) := by
  intro msgs
  induction msgs with
  | nil => intro s h; simp
  | cons m ms ih =>
      intro s h
      by_cases hs : m.role = "system"
      · simp [cohereStep, hs, ih, List.filter_cons]
      · by_cases hu : m.role = "user"
        · simp [cohereStep, hs, hu, ih, List.filter_cons, getLastD_cons]
        · by_cases ha : m.role = "assistant"
          · simp [cohereStep, hs, hu, ha, ih, List.filter_cons]
          · simp [cohereStep, hs, hu, ha, ih, List.filter_cons]

/-- Filtering out system messages does not change the messages selected by
any other role. -/
lemma filter_role_filter_ne_system (r : String) (hr : r ≠ "system") :
    ∀ msgs : List Message,
      (msgs.filter (fun m => m.role != "system")).filter
          (fun m => m.role == r) =
        msgs.filter (fun m => m.role == r) := by
  intro msgs
  induction msgs with
  | nil => rfl
  | cons m ms ih =>
      by_cases hs : m.role = "system"
      · have hrne : ¬m.role = r := by rw [hs]; exact fun hc => hr hc.symm
        simp [List.filter_cons, hs, hrne, Ne.symm hr, ih]
      · simp [List.filter_cons, hs, ih]

/-! ### Claim theorems -/

/-- C3: Config.get traverses the nested mapping segment by segment,
returning the default as soon as a segment is absent or the current value
is not itself a mapping, and the leaf value otherwise; in particular
get of settings.save_conversation with default true returns false on a
configuration holding save_conversation false, and true on the empty
configuration. -/
theorem config_get_spec :
    (∀ d v, getGo d v [] = v) ∧
    (∀ d es k ks, es.lookup k = none →
        getGo d (CValue.dict es) (k :: ks) = d) ∧
    (∀ d es k ks v, es.lookup k = some v →
        getGo d (CValue.dict es) (k :: ks) = getGo d v ks) ∧
    (∀ d v k ks, (∀ es, v ≠ CValue.dict es) → getGo d v (k :: ks) = d) ∧
    Config.get
        (CValue.dict [("settings",
          CValue.dict [("save_conversation", CValue.boolean false)])])
        "settings.save_conversation" (CValue.boolean true) =
      CValue.boolean false ∧
    Config.get (CValue.dict []) "settings.save_conversation"
        (CValue.boolean true) = CValue.boolean true := by
  refine ⟨?_, ?_, ?_, ?_, ?_, ?_⟩
  · intro d v; cases v <;> rfl
  · intro d es k ks hn; simp [getGo, hn]
  · intro d es k ks v hv; simp [getGo, hv]
  · intro d v k ks hv
    cases v with
    | dict es => exact absurd rfl (hv es)
    | str s => rfl
    | boolean b => rfl
    | num n => rfl
    | null => rfl
  · rfl
  · rfl

/-- C3 witness: the traversal returns the default on a missing segment at a
concrete input. -/
theorem config_get_spec_witness :
    getGo (CValue.str "d") (CValue.dict []) ["missing"] = CValue.str "d" :=
  config_get_spec.2.1 (CValue.str "d") [] "missing" [] rfl

/-- C4: Config.api_key returns a non-empty configured key unchanged;
otherwise it probes PROVIDER_API_KEY, PROVIDERAPI_KEY, API_KEY in that
order with the provider name upper-cased, returning the first non-empty
value, or the empty string when all are empty; in particular with an empty
configured key, provider groq and GROQ_API_KEY set to xyz it returns
xyz. -/
theorem config_api_key_spec :
    (∀ ck p getenv, ck ≠ "" → Config.api_key ck p getenv = ck) ∧
    (∀ p getenv, Config.api_key "" p getenv =
        probeEnv getenv
          [pyUpper p ++ "_API_KEY", pyUpper p ++ "API_KEY", "API_KEY"]) ∧
    (∀ getenv n ns, getenv n ≠ "" →
        probeEnv getenv (n :: ns) = getenv n) ∧
    (∀ getenv n ns, getenv n = "" →
        probeEnv getenv (n :: ns) = probeEnv getenv ns) ∧
    (∀ getenv, probeEnv getenv ([] : List String) = "") ∧
    Config.api_key "" "groq"
        (fun n => if n = "GROQ_API_KEY" then "xyz" else "") = "xyz" := by
  refine ⟨?_, ?_, ?_, ?_, ?_, ?_⟩
  · intro ck p getenv hck; simp [Config.api_key, hck]
  · intro p getenv; simp [Config.api_key]
  · intro getenv n ns hn; simp [probeEnv, hn]
  · intro getenv n ns hn; simp [probeEnv, hn]
  · intro getenv; rfl
  · rfl

/-- C4 witness: a non-empty configured key is preferred over the
environment at a concrete input. -/
theorem config_api_key_spec_witness :
    Config.api_key "cfgkey" "groq"
        (fun n => if n = "GROQ_API_KEY" then "xyz" else "") = "cfgkey" :=
  config_api_key_spec.1 "cfgkey" "groq"
    (fun n => if n = "GROQ_API_KEY" then "xyz" else "") (by decide)

/-- C5: get_messages_for_api returns the system-instruction message first
when the instruction is non-empty, followed by the full history in
insertion order, and just the history when the instruction is empty;
clearing the history first yields only the system message, or the empty
list when the instruction is empty. -/
theorem get_messages_for_api_spec :
    (∀ instr hist, instr ≠ "" →
        get_messages_for_api instr hist =
          { role := "system", content := instr } :: hist) ∧
    (∀ hist, get_messages_for_api "" hist = hist) ∧
    (∀ instr hist, instr ≠ "" →
        get_messages_for_api instr (clear_history hist) =
          [{ role := "system", content := instr }]) ∧
    (∀ hist : List Message,
        get_messages_for_api "" (clear_history hist) = []) := by
  refine ⟨?_, ?_, ?_, ?_⟩
  · intro instr hist h; simp [get_messages_for_api, h]
  · intro hist; simp [get_messages_for_api]
  · intro instr hist h; simp [get_messages_for_api, clear_history, h]
  · intro hist; rfl

/-- C5 witness: assembly at a concrete non-empty instruction and
history. -/
theorem get_messages_for_api_spec_witness :
    get_messages_for_api "S" [{ role := "user", content := "hi" }] =
      [{ role := "system", content := "S" },
       { role := "user", content := "hi" }] :=
  get_messages_for_api_spec.1 "S" [{ role := "user", content := "hi" }]
    (by decide)

/-- Invariant propagation for the history-mutating operations: from any
history free of system-role messages, any sequence of operations yields a
history free of system-role messages. -/
lemma foldl_applyOp_no_system :
    ∀ (ops : List HistOp) (h : List Message),
      (∀ m ∈ h, m.role ≠ "system") →
      ∀ m ∈ ops.foldl applyOp h, m.role ≠ "system" := by
  intro ops
  induction ops with
  | nil => intro h hh; simpa using hh
  | cons op ops ih =>
      intro h hh
      refine ih (applyOp h op) ?_
      cases op with
      | user s =>
          intro m hm
          rcases List.mem_append.1 hm with h1 | h2
          · exact hh m h1
          · rcases List.mem_singleton.1 h2 with rfl
            simp
      | assistant s =>
          intro m hm
          rcases List.mem_append.1 hm with h1 | h2
          · exact hh m h1
          · rcases List.mem_singleton.1 h2 with rfl
            simp
      | clear => intro m hm; simp [applyOp, clear_history] at hm

/-- C6: starting from the empty history, after any sequence of the
history-mutating operations (append user turn, append assistant reply,
clear), the conversation history never contains a system-role message. -/
theorem history_never_contains_system (ops : List HistOp) :
    ∀ m ∈ runOps ops, m.role ≠ "system" :=
  foldl_applyOp_no_system ops [] (by intro m hm; simp at hm)

/-- C6 witness: the invariant evaluated on a concrete operation
sequence. -/
theorem history_never_contains_system_witness :
    ({ role := "user", content := "hi" } : Message).role ≠ "system" :=
  history_never_contains_system [HistOp.user "hi"]
    { role := "user", content := "hi" } (by decide)

/-- C7: when the provider chat call fails on the assembled messages, the
chat turn surfaces the failure once as a visible error line, reports that
the session continues, and leaves the history equal to the prior history
plus the user message, with no assistant reply appended. -/
theorem process_chat_message_provider_error
    (chat : List Message → Except String String) (instr : String)
    (hist : List Message) (user_input : String) (e : String)
    (hfail : chat (get_messages_for_api instr
        (hist ++ [{ role := "user", content := user_input }])) =
      Except.error e) :
    process_chat_message chat instr hist user_input =
      { conversation_history :=
          hist ++ [{ role := "user", content := user_input }],
        continue_session := true, reply := none,
        error_message := some ("Error: " ++ e) } := by
  simp [process_chat_message, hfail]

/-- C7 witness: a concrete always-failing provider leaves the user message
in history, no reply, one error line, and a continuing session. -/
theorem process_chat_message_provider_error_witness :
    process_chat_message (fun _ => Except.error "boom") "S" [] "hi" =
      { conversation_history := [{ role := "user", content := "hi" }],
        continue_session := true, reply := none,
        error_message := some "Error: boom" } :=
  process_chat_message_provider_error (fun _ => Except.error "boom")
    "S" [] "hi" "boom" rfl

/-- C8: create_provider looks the configured name up case-insensitively
(via lower-casing) in the fixed five-entry registry, returns the matching
constructor when present, fails with an error message listing all
registered names when absent, and is deterministic. -/
theorem create_provider_spec :
    (∀ name c, PROVIDERS.lookup (pyLower name) = some c →
        create_provider name = Except.ok c) ∧
    (∀ name, PROVIDERS.lookup (pyLower name) = none →
        create_provider name = Except.error ("Unknown provider \x27" ++
          pyLower name ++ "\x27. Available: " ++
          String.intercalate ", " (PROVIDERS.map Prod.fst))) ∧
    String.intercalate ", " (PROVIDERS.map Prod.fst) =
      "openai, anthropic, cohere, ollama, groq" ∧
    create_provider "OpenAI" = Except.ok ProviderKind.openai ∧
    create_provider "ANTHROPIC" = Except.ok ProviderKind.anthropic ∧
    create_provider "Cohere" = Except.ok ProviderKind.cohere ∧
    create_provider "ollama" = Except.ok ProviderKind.ollama ∧
    create_provider "Groq" = Except.ok ProviderKind.groq ∧
    (∀ n₁ n₂ : String, n₁ = n₂ → create_provider n₁ = create_provider n₂) := by
  refine ⟨?_, ?_, ?_, rfl, rfl, rfl, rfl, rfl, ?_⟩
  · intro name c hc; simp [create_provider, hc]
  · intro name hn; simp [create_provider, hn]
  · rfl
  · intro n₁ n₂ h; rw [h]

/-- C8 witness: a name absent from the registry fails with the message
listing every registered provider. -/
theorem create_provider_spec_witness :
    create_provider "gemini" = Except.error ("Unknown provider \x27" ++
      pyLower "gemini" ++ "\x27. Available: " ++
      String.intercalate ", " (PROVIDERS.map Prod.fst)) :=
  create_provider_spec.2.1 "gemini" rfl

/-- C9: the Groq provider chat builds a request identical to the
OpenAI-style provider chat on every message list: the role/content list is
passed through unchanged with the same model, temperature and max-token
parameters. -/
theorem groq_chat_eq_openai_chat {T : Type} :
    (∀ (model : String) (temperature : T) (max_tokens : Nat)
        (messages : List Message),
        GroqProvider.chat model temperature max_tokens messages =
          OpenAIProvider.chat model temperature max_tokens messages) ∧
    (∀ (model : String) (temperature : T) (max_tokens : Nat)
        (messages : List Message),
        (OpenAIProvider.chat model temperature max_tokens messages).messages
            = messages ∧
          (OpenAIProvider.chat model temperature max_tokens messages).model
            = model ∧
          (OpenAIProvider.chat model temperature max_tokens
              messages).temperature = temperature ∧
          (OpenAIProvider.chat model temperature max_tokens
              messages).max_tokens = max_tokens) :=
  ⟨fun _ _ _ _ => rfl, fun _ _ _ _ => ⟨rfl, rfl, rfl, rfl⟩⟩

/-- C1: the Cohere chat formatting makes the content of the most recent
user-role message the singular current-message field, relabels the
assistant messages to CHATBOT entries of the chat-history list in order,
discards every system-role message (the request is unchanged by removing
them) and drops all user messages other than the last; on the concrete
input [system S, user u1, assistant a1, user u2] the current message is u2
and the chat history is the single CHATBOT entry a1, with u1 dropped. -/
theorem cohere_chat_spec {T : Type} (model : String) (temperature : T)
    (max_tokens : Nat) :
    (∀ (msgs : List Message) (m : Message),
        (msgs.filter (fun x => x.role == "user")).getLast? = some m →
        (CohereProvider.chat model temperature max_tokens msgs).message =
          m.content) ∧
    (∀ msgs : List Message,
        (CohereProvider.chat model temperature max_tokens msgs).chat_history
          = (msgs.filter (fun x => x.role == "assistant")).map
              (fun x => { role := "CHATBOT", message := x.content })) ∧
    (∀ msgs : List Message,
        CohereProvider.chat model temperature max_tokens msgs =
          CohereProvider.chat model temperature max_tokens
            (msgs.filter (fun x => x.role != "system"))) ∧
    CohereProvider.chat model temperature max_tokens
        [{ role := "system", content := "S" },
         { role := "user", content := "u1" },
         { role := "assistant", content := "a1" },
         { role := "user", content := "u2" }] =
      { model := model, message := "u2",
        chat_history := [{ role := "CHATBOT", message := "a1" }],
        temperature := temperature, max_tokens := max_tokens } := by
  refine ⟨?_, ?_, ?_, ?_⟩
  · intro msgs m hm
    simp [CohereProvider.chat, cohere_foldl, List.getLast?_map, hm]
  · intro msgs
    simp [CohereProvider.chat, cohere_foldl]
  · intro msgs
    simp [CohereProvider.chat, cohere_foldl,
      filter_role_filter_ne_system "user" (by decide),
      filter_role_filter_ne_system "assistant" (by decide)]
  · rfl

/-- C1 witness: the current-message conjunct evaluated at a concrete
single-user-message input. -/
theorem cohere_chat_spec_witness :
    (CohereProvider.chat "command" (0 : Nat) 150
        [{ role := "user", content := "hello" }]).message = "hello" :=
  (cohere_chat_spec "command" (0 : Nat) 150).1
    [{ role := "user", content := "hello" }]
    { role := "user", content := "hello" } (by decide)

/-- C2: the Anthropic chat formatting extracts the single system-role
message, when there is one, into the separate top-level system field (and
leaves it empty when there is none) and passes all remaining messages in
their original order as the turn list; on the concrete input
[system S, user u1, assistant a1, user u2] the system field is S and the
turn list is [user u1, assistant a1, user u2]. -/
theorem anthropic_chat_single_system {T : Type} (model : String)
    (temperature : T) (max_tokens : Nat) :
    (∀ msgs : List Message,
        msgs.filter (fun m => m.role == "system") = [] →
        (AnthropicProvider.chat model temperature max_tokens msgs).system =
          "") ∧
    (∀ (msgs : List Message) (m : Message),
        msgs.filter (fun m => m.role == "system") = [m] →
        (AnthropicProvider.chat model temperature max_tokens msgs).system =
          m.content) ∧
    (∀ msgs : List Message,
        (AnthropicProvider.chat model temperature max_tokens msgs).messages
          = msgs.filter (fun m => m.role != "system")) ∧
    AnthropicProvider.chat model temperature max_tokens
        [{ role := "system", content := "S" },
         { role := "user", content := "u1" },
         { role := "assistant", content := "a1" },
         { role := "user", content := "u2" }] =
      { model := model, system := "S",
        messages := [{ role := "user", content := "u1" },
                     { role := "assistant", content := "a1" },
                     { role := "user", content := "u2" }],
        temperature := temperature, max_tokens := max_tokens } := by
  refine ⟨?_, ?_, ?_, ?_⟩
  · intro msgs hm
    simp [AnthropicProvider.chat, anthropic_foldl, hm]
  · intro msgs m hm
    simp [AnthropicProvider.chat, anthropic_foldl, hm]
  · intro msgs
    simp [AnthropicProvider.chat, anthropic_foldl]
  · rfl

/-- C2 witness: the single-system conjunct evaluated at a concrete
input. -/
theorem anthropic_chat_single_system_witness :
    (AnthropicProvider.chat "claude-3-haiku-20240307" (0 : Nat) 150
        [{ role := "system", content := "persona" },
         { role := "user", content := "hello" }]).system = "persona" :=
  (anthropic_chat_single_system "claude-3-haiku-20240307" (0 : Nat) 150).2.1
    [{ role := "system", content := "persona" },
     { role := "user", content := "hello" }]
    { role := "system", content := "persona" } (by decide)

/-- C10: on any message list, the Anthropic chat formatting gives the
separate system field the content of the last system-role message (the
empty string when there is none) and removes every system-role message,
wherever it occurs, from the forwarded turn list; on a concrete input with
two system messages the second one wins and both are removed. -/
theorem anthropic_chat_system_general {T : Type} (model : String)
    (temperature : T) (max_tokens : Nat) :
    (∀ msgs : List Message,
        (AnthropicProvider.chat model temperature max_tokens msgs).system =
          (((msgs.filter (fun m => m.role == "system")).map
              Message.content).getLast?).getD "") ∧
    (∀ msgs : List Message,
        (AnthropicProvider.chat model temperature max_tokens msgs).messages
          = msgs.filter (fun m => m.role != "system")) ∧
    AnthropicProvider.chat model temperature max_tokens
        [{ role := "system", content := "S1" },
         { role := "user", content := "u1" },
         { role := "system", content := "S2" },
         { role := "user", content := "u2" }] =
      { model := model, system := "S2",
        messages := [{ role := "user", content := "u1" },
                     { role := "user", content := "u2" }],
        temperature := temperature, max_tokens := max_tokens } := by
  refine ⟨?_, ?_, ?_⟩
  · intro msgs
    simp [AnthropicProvider.chat, anthropic_foldl]
  · intro msgs
    simp [AnthropicProvider.chat, anthropic_foldl]
  · rfl

end AriaBot
